import Mathlib

/-!
Shallow embedding of `src/script.py` (Okta member bulk-import script).

Modelling conventions:
* Spreadsheet cell values are `Option String`: `none` is the Python `None`
  cell, `some s` is a cell whose `str()` rendering is `s`.
* A Python `dict` payload (`Dict[str, str]`, values possibly `None`) is an
  association list `List (String × Option String)` in insertion order.
* JSON response bodies are the inductive `Json` below; the Python/JSON
  `null` (`None`) is `Json.null`.
* The three HTTP calls (`requests.post` create, `requests.get` lookup,
  `requests.post` update) are abstracted by an oracle `World` that records,
  for each call, either the raised transport exception or the returned
  response (status code, parsed-JSON outcome of `.json()`, raw `.text`).
  The request payloads sent on the wire do not influence the oracle.
* A raised Python exception is an `Except` error carrying the `str(e)`
  message; `ValueError` is distinguished from other exceptions because
  `main` catches it separately.
-/

namespace ImportMember

/-- JSON values as returned by `response.json()`. -/
inductive Json where
  | null
  | bool (b : Bool)
  | num (n : Int)
  | str (s : String)
  | arr (elems : List Json)
  | obj (fields : List (String × Json))

/-- Python truthiness of a JSON/Python value (`if x:`). -/
def jtruthy : Json → Bool
  | .null => false
  | .bool b => b
  | .num n => n != 0
  | .str s => s != ""
  | .arr xs => !xs.isEmpty
  | .obj fs => !fs.isEmpty

/-- Python `x == "lit"` for a JSON value `x`: only a string can equal a
string literal. -/
def jeqStr : Json → String → Bool
  | .str t, s => t == s
  | _, _ => false

/-- First binding of key `k` in a JSON object field list (Python dict
lookup order; JSON objects keep one binding per key). -/
def fieldsGet (fs : List (String × Json)) (k : String) : Option Json :=
  (fs.find? (fun kv => kv.1 == k)).map Prod.snd

/-- Python `d.get(k, default)` on a value that must be a dict; on a
non-dict it raises `AttributeError` (the `.get` attribute is missing). -/
def dictGet (j : Json) (k : String) (d : Json) : Except String Json :=
  match j with
  | .obj fs => .ok ((fieldsGet fs k).getD d)
  | _ => .error "AttributeError: object has no attribute get"

/-- Single-quote character, used by the Python `repr` of strings. -/
def sq : String := String.singleton (Char.ofNat 39)

mutual
/-- Python `repr()` of a JSON/Python value (as `str()` uses it for
containers: `str(dict)` and `str(list)` show items via `repr`). -/
def pyReprV : Json → String
  | .null => "None"
  | .bool b => if b then "True" else "False"
  | .num n => toString n
  | .str s => sq ++ s ++ sq
  | .arr xs => "[" ++ pyReprList xs ++ "]"
  | .obj fs => "\x7b" ++ pyReprFields fs ++ "\x7d"

/-- Comma-separated `repr` items of a list. -/
def pyReprList : List Json → String
  | [] => ""
  | [x] => pyReprV x
  | x :: y :: xs => pyReprV x ++ ", " ++ pyReprList (y :: xs)

/-- Comma-separated `repr` items of a dict. -/
def pyReprFields : List (String × Json) → String
  | [] => ""
  | [(k, v)] => sq ++ k ++ sq ++ ": " ++ pyReprV v
  | (k, v) :: y :: xs => sq ++ k ++ sq ++ ": " ++ pyReprV v ++ ", " ++ pyReprFields (y :: xs)
end

/-- Python `str()` of a JSON/Python value. -/
def pyStr : Json → String
  | .str s => s
  | j => pyReprV j

/-- Python exceptions relevant to the script: `ValueError` (caught
separately in `main`) versus everything else. -/
inductive PyErr where
  | valueError (msg : String)
  | other (msg : String)

/-- A spreadsheet cell: `none` is the Python `None` cell. -/
abbrev Cell := Option String

/-- The payload dict built by `prepare_data` (Python `Dict[str, str]`,
values possibly `None` in general). -/
abbrev Dict := List (String × Option String)

/-- Python `data[k]` dict lookup: `none` means a `KeyError` would be
raised. -/
def dlookup (d : Dict) (k : String) : Option (Option String) :=
  (d.find? (fun kv => kv.1 == k)).map Prod.snd

/-- Python truthiness of an `Optional[str]`: falsy iff `None` or `""`. -/
def strTruthy : Option String → Bool
  | none => false
  | some s => s != ""

/-- Python `v or default` on an `Optional[str]`. -/
def pyOr (v : Option String) (d : String) : String :=
  match v with
  | some s => if s == "" then d else s
  | none => d

/-- Python `str.strip()`: drop whitespace from both ends of the
character sequence. -/
def pyStrip (s : String) : String :=
  String.mk (((s.data.dropWhile Char.isWhitespace).reverse.dropWhile Char.isWhitespace).reverse)

/-- The inner helper `get_str` of `prepare_data`:
`row[headers.index(key)]` when `key in headers` (raising `IndexError` when
the row is shorter), then `str(value).strip()` unless the value is `None`
or `""`. -/
def get_str (row : List Cell) (headers : List String) (key : String) : Except PyErr (Option String) :=
  if key ∈ headers then
    match row[headers.indexOf key]? with
    | none => .error (.other "IndexError: list index out of range")
    | some none => .ok none
    | some (some s) => .ok (if s == "" then none else some (pyStrip s))
  else .ok none

/-- Model of `prepare_data(row, headers)`: reads the five named columns in source
order, raises `ValueError` when `First Name` or `Email` is falsy, and
otherwise returns the six-field payload dict with defaults applied. -/
def prepare_data (row : List Cell) (headers : List String) : Except PyErr Dict :=
  match get_str row headers "First Name" with
  | .error e => .error e
  | .ok first_name =>
    match get_str row headers "Last Name" with
    | .error e => .error e
    | .ok last_name =>
      match get_str row headers "Title" with
      | .error e => .error e
      | .ok title =>
        match get_str row headers "password" with
        | .error e => .error e
        | .ok password =>
          match get_str row headers "Email" with
          | .error e => .error e
          | .ok email =>
            if !strTruthy first_name || !strTruthy email then
              .error (.valueError "Missing required fields: First Name or Email")
            else
              .ok [("title", some (pyOr title "-")),
                   ("firstName", first_name),
                   ("lastName", some (pyOr last_name "-")),
                   ("email", email),
                   ("password", some (pyOr password "@Default1")),
                   ("isFactorForceActivated", some "true")]

/-- Outcome of one HTTP call as seen by the script: a raised transport
exception (`requests` timeout, connection error, ...) with its `str(e)`
message, or a response with status code, the outcome of `response.json()`
(a parse failure is itself a raised exception), and the raw
`response.text`. -/
inductive HttpResp where
  | exn (e : String)
  | resp (status : Nat) (body : Except String Json) (text : String)

/-- Network oracle for one row: the responses the three endpoints would
give if called (create, lookup, update). -/
structure World where
  createResp : HttpResp
  lookupResp : HttpResp
  updateResp : HttpResp

/-- Return value of `update_user_profile`: the `status_code` int on a
completed request, or — on a raised exception — the pair
`({"success": False, "error": str(e)}, 500)` from its `except` clause. -/
inductive UpdateRet where
  | code (n : Nat)
  | exnTuple (e : String)

/-- Python `update_resp == 200`: an int compares by value, the
exception-path tuple is never equal to `200`. -/
def updateIs200 : UpdateRet → Bool
  | .code n => n == 200
  | .exnTuple _ => false

/-- The heterogeneous `response` component that `create_user` returns:
a dict/JSON body, the bare int from `update_user_profile`, or the tuple
from the update exception path. -/
inductive RespVal where
  | json (j : Json)
  | int (n : Nat)
  | tup (e : String)

/-- Coerce an `update_user_profile` return value into the `response` slot
of the `create_user` result. -/
def respValOfUpdate : UpdateRet → RespVal
  | .code n => .int n
  | .exnTuple e => .tup e

/-- Model of `get_user_id_by_email(email)`: on HTTP 200 with a non-empty JSON
array whose head is a dict, returns `users[0].get("id")`; every other
path (transport exception, non-200, parse failure, non-list body, empty
list, non-dict head — the latter raising `AttributeError` inside the
`try`) returns Python `None` (`Json.null`). The query parameters do not
influence the oracle response. -/
def get_user_id_by_email (lookup : HttpResp) : Json :=
  match lookup with
  | .exn _ => Json.null
  | .resp status body _ =>
    if status == 200 then
      match body with
      | .ok (Json.arr (u :: _)) =>
        match u with
        | .obj fs => (fieldsGet fs "id").getD Json.null
        | _ => Json.null
      | _ => Json.null
    else Json.null

/-- Model of `update_user_profile(user_id, data)`: the request payload
(`userId`, `personalTitle`, `firstName`, `lastName`) does not influence
the oracle; the function returns the status code, or the exception tuple
from its `except` clause. -/
def update_user_profile (update : HttpResp) : UpdateRet :=
  match update with
  | .exn e => .exnTuple e
  | .resp status _ _ => .code status

/-- The dict comprehension `{k: v for k, v in data.items() if v is not None}`
at the top of `create_user`. -/
def clean_data (data : Dict) : Dict :=
  data.filter (fun kv => kv.2.isSome)

/-- The `try` body of `create_user`: errors are the exceptions its
`except Exception` clause catches. Follows the source branch for branch;
the `requests.post` of the form body `clean_data data` is answered by the
oracle, and the two locals `user_id` and `update_resp` of the duplicate
branch are inlined (their defining calls are pure in the model). -/
def create_user_try (data : Dict) (w : World) : Except String (String × RespVal × Json) :=
  match w.createResp with
  | .exn e => .error e
  | .resp status body text =>
    if status == 200 then
      match body with
      | .error e => .error e
      | .ok resp_json =>
        match dictGet resp_json "success" Json.null with
        | .error e => .error e
        | .ok succ =>
          if jtruthy succ then
            match dictGet resp_json "value" (Json.obj []) with
            | .error e => .error e
            | .ok v =>
              match dictGet v "id" (Json.str "") with
              | .error e => .error e
              | .ok user_id => .ok ("created", RespVal.json resp_json, user_id)
          else
            match dictGet resp_json "errorMessage" Json.null with
            | .error e => .error e
            | .ok em =>
              if jeqStr em "email_duplicate" then
                match dlookup data "email" with
                | none => .error "KeyError: email"
                | some _email =>
                  if jtruthy (get_user_id_by_email w.lookupResp) then
                    if updateIs200 (update_user_profile w.updateResp) then
                      .ok ("updated", respValOfUpdate (update_user_profile w.updateResp),
                           get_user_id_by_email w.lookupResp)
                    else
                      .ok ("failed", respValOfUpdate (update_user_profile w.updateResp),
                           get_user_id_by_email w.lookupResp)
                  else
                    .ok ("failed", RespVal.json (Json.obj [("error", Json.str "User not found for update")]), Json.str "")
              else
                .ok ("failed", RespVal.json resp_json, Json.str "")
    else
      .ok ("failed", RespVal.json (Json.obj [("error", Json.str text)]), Json.str "")

/-- Model of `create_user(data)`: the `try` body, with any caught exception mapped
to `("failed", {"error": str(e)}, "")`. -/
def create_user (data : Dict) (w : World) : String × RespVal × Json :=
  match create_user_try data w with
  | .ok r => r
  | .error e => ("failed", RespVal.json (Json.obj [("error", Json.str e)]), Json.str "")

/-- The right operand of the `or` in the `error_msg` computation:
`response.get("error", str(response))` on a dict `fs`; the CSV layer
renders the looked-up value with `str()`. -/
def error_msg_fallback (fs : List (String × Json)) : String :=
  match fieldsGet fs "error" with
  | some v => pyStr v
  | none => pyStr (Json.obj fs)

/-- The `error_msg` computation in `main`:
`response.get("errorMessage") or response.get("error", str(response))`,
evaluated only when `status == "failed"`. On a non-dict `response` (the
bare int or tuple that the update path returns) the first `.get` raises
`AttributeError`, which the per-row `except Exception` clause catches. -/
def error_msg_of (status : String) (response : RespVal) : Except String String :=
  if status == "failed" then
    match response with
    | .json (Json.obj fs) =>
      match fieldsGet fs "errorMessage" with
      | some v => if jtruthy v then .ok (pyStr v) else .ok (error_msg_fallback fs)
      | none => .ok (error_msg_fallback fs)
    | .json _ => .error "AttributeError: object has no attribute get"
    | .int _ => .error "AttributeError: int object has no attribute get"
    | .tup _ => .error "AttributeError: tuple object has no attribute get"
  else .ok ""

/-- One CSV row of the report, after the `csv.DictWriter` string
conversion (`None` is written as the empty string). -/
structure Record where
  row_number : Nat
  email : String
  status : String
  user_id : String
  error : String
deriving DecidableEq, Repr

/-- How `csv.DictWriter` renders the `data["email"]` value. -/
def write_email (v : Option String) : String := v.getD ""

/-- One iteration of the `for row_num in range(2, sheet.max_row + 1)`
loop. `dataOpt` is the binding of the local variable `data` entering the
iteration (`none` = still unbound). An `Except` error is an exception
that escapes the per-row handlers (the handlers themselves evaluate
`data["email"]`, which raises `UnboundLocalError` when `data` was never
bound) and therefore aborts the whole run. On success, returns the
record written for this row and the `data` binding left for the next
iteration. -/
def process_row (headers : List String) (dataOpt : Option Dict) (row_num : Nat)
    (row : List Cell) (w : World) : Except PyErr (Record × Option Dict) :=
  match prepare_data row headers with
  | .ok data =>
    match create_user data w with
    | (status, response, user_id) =>
      match error_msg_of status response with
      | .error e =>
        match dlookup data "email" with
        | none => .error (.other "KeyError: email")
        | some emailVal =>
          .ok ({ row_number := row_num, email := write_email emailVal,
                 status := "error", user_id := "", error := e }, some data)
      | .ok error_msg =>
        match dlookup data "email" with
        | none => .error (.other "KeyError: email")
        | some emailVal =>
          .ok ({ row_number := row_num, email := write_email emailVal,
                 status := status, user_id := pyStr user_id, error := error_msg }, some data)
  | .error (.valueError msg) =>
    match dataOpt with
    | none => .error (.other "UnboundLocalError: local variable data referenced before assignment")
    | some data =>
      match dlookup data "email" with
      | none => .error (.other "KeyError: email")
      | some emailVal =>
        .ok ({ row_number := row_num, email := write_email emailVal,
               status := "skipped", user_id := "", error := msg }, dataOpt)
  | .error (.other msg) =>
    match dataOpt with
    | none => .error (.other "UnboundLocalError: local variable data referenced before assignment")
    | some data =>
      match dlookup data "email" with
      | none => .error (.other "KeyError: email")
      | some emailVal =>
        .ok ({ row_number := row_num, email := write_email emailVal,
               status := "error", user_id := "", error := msg }, dataOpt)

/-- The whole per-row loop from row number `n`: returns the records
written (in write order) and `some e` when an exception escaped a row
and aborted the run (the records written before the abort survive in the
report file). -/
def run_rows (headers : List String) : Option Dict → Nat → List (List Cell × World) →
    List Record × Option PyErr
  | _, _, [] => ([], none)
  | dataOpt, n, (row, w) :: rest =>
    match process_row headers dataOpt n row w with
    | .error e => ([], some e)
    | .ok (rec, dataOpt') =>
      let tail := run_rows headers dataOpt' (n + 1) rest
      (rec :: tail.1, tail.2)

/-- The report produced by `main` for a workbook with header list
`headers` and data rows 2, 3, ... given by `rows` (each with its network
oracle): the CSV records in write order, plus `some e` when the run
aborted with a fatal error (exit code 1). -/
def main_report (headers : List String) (rows : List (List Cell × World)) :
    List Record × Option PyErr :=
  run_rows headers none 2 rows

/-! ## Shared concrete inputs and helper lemmas -/

/-- Oracle on which every remote call raises a transport exception. -/
def wExn : World := ⟨.exn "connection timeout", .exn "connection timeout", .exn "connection timeout"⟩

/-- A successful create-response body. -/
def c4Body : Json :=
  Json.obj [("success", Json.bool true), ("value", Json.obj [("id", Json.str "U1")])]

/-- Oracle whose create call succeeds with `c4Body`. -/
def w4 : World := ⟨.resp 200 (.ok c4Body) "", .exn "boom", .exn "boom"⟩

/-- A duplicate-email create-response body. -/
def dupBody : Json := Json.obj [("errorMessage", Json.str "email_duplicate")]

/-- Oracle for the duplicate-email path whose lookup finds `U2` and whose
update call returns HTTP 500. -/
def wC8 : World :=
  ⟨.resp 200 (.ok dupBody) "",
   .resp 200 (.ok (Json.arr [Json.obj [("id", Json.str "U2")]])) "",
   .resp 500 (.ok Json.null) "ServerError"⟩

/-- The payload `prepare_data` builds for the row `["A", "a@x.com"]` under
headers `["First Name", "Email"]`. -/
def dataA : Dict :=
  [("title", some "-"), ("firstName", some "A"), ("lastName", some "-"),
   ("email", some "a@x.com"), ("password", some "@Default1"),
   ("isFactorForceActivated", some "true")]

/-- Truthiness of a string value, as an unfolding lemma. -/
theorem jtruthy_str (s : String) : jtruthy (Json.str s) = (s != "") := rfl

/-- Truthiness of the JSON null value, as an unfolding lemma. -/
theorem jtruthy_null : jtruthy Json.null = false := rfl

/-- Python `v or d` is never empty when the default is not. -/
theorem pyOr_ne_empty (v : Option String) (d : String) (hd : d ≠ "") : pyOr v d ≠ "" := by
  cases v with
  | none => simpa [pyOr] using hd
  | some s =>
    by_cases hs : s = ""
    · simpa [pyOr, hs] using hd
    · simp [pyOr, hs]

/-! ## Claims -/

/-- Claim C2: for every raw row whose `First Name` and `Email` cells are
non-blank after trimming (`get_str` returns the trimmed cell values and
they are non-empty), `prepare_data` returns the payload with exactly the
six fields of the source dict literal: title defaulted to `-`, lastName
defaulted to `-`, password defaulted to `@Default1`,
isFactorForceActivated the constant `true`, and firstName and email the
trimmed cell values. -/
theorem C2_transform_defaults (row : List Cell) (headers : List String)
    (fn em : String) (t l p : Option String)
    (hf : get_str row headers "First Name" = .ok (some fn)) (hfn : fn ≠ "")
    (hl : get_str row headers "Last Name" = .ok l)
    (ht : get_str row headers "Title" = .ok t)
    (hp : get_str row headers "password" = .ok p)
    (he : get_str row headers "Email" = .ok (some em)) (hem : em ≠ "") :
    prepare_data row headers = .ok
      [("title", some (pyOr t "-")),
       ("firstName", some fn),
       ("lastName", some (pyOr l "-")),
       ("email", some em),
       ("password", some (pyOr p "@Default1")),
       ("isFactorForceActivated", some "true")] := by
  unfold prepare_data
  rw [hf, hl, ht, hp, he]
  simp [strTruthy, hfn, hem]

/-- Witness for C2 at a concrete row: `Title`, `Last Name` and `password`
columns absent, `Email` cell carrying surrounding whitespace that the
transformer trims away. -/
theorem C2_transform_defaults_witness :
    prepare_data [some "John", some " j@x.com "] ["First Name", "Email"] = .ok
      [("title", some "-"),
       ("firstName", some "John"),
       ("lastName", some "-"),
       ("email", some "j@x.com"),
       ("password", some "@Default1"),
       ("isFactorForceActivated", some "true")] :=
  C2_transform_defaults [some "John", some " j@x.com "] ["First Name", "Email"]
    "John" "j@x.com" none none none (by rfl) (by decide) (by rfl) (by rfl) (by rfl)
    (by rfl) (by decide)

/-- Claim C4: an HTTP 200 create response with body
`{"success": true, "value": {"id": "U1"}}` yields status `created` with
user id `U1` extracted from the nested identifier, for every payload. -/
theorem C4_created_extracts_id (data : Dict) (w : World) (t : String)
    (h : w.createResp = .resp 200 (.ok c4Body) t) :
    create_user data w = ("created", RespVal.json c4Body, Json.str "U1") := by
  unfold create_user create_user_try
  rw [h]
  rfl

/-- Witness for C4: the oracle `w4` and the empty payload. -/
theorem C4_created_extracts_id_witness :
    create_user [] w4 = ("created", RespVal.json c4Body, Json.str "U1") :=
  C4_created_extracts_id [] w4 "" rfl

/-- Claim C1 fails on the code: when the very first data row (row 2)
fails required-field validation, the `except ValueError` handler reads
the never-assigned local `data`, raising `UnboundLocalError`; the
exception escapes the loop, the run aborts fatally, and the report
contains no record at all for the input row, so the loop does terminate
early on a per-row validation failure. -/
theorem C1_first_row_validation_aborts_run :
    main_report ["First Name", "Email"] [([none, none], wExn)] =
      ([], some (PyErr.other
        "UnboundLocalError: local variable data referenced before assignment")) := rfl

/-- Claim C3 fails on the code: a skipped row is reported with the email
of the previous successfully transformed row, not its own email and not
the empty string. Row 2 (email `a@x.com`) transforms fine; row 3 has a
blank `First Name` and its own email `b@x.com`, yet its skipped record
carries `a@x.com`, the stale binding of the local `data`. -/
theorem C3_skipped_row_reports_stale_email :
    ((main_report ["First Name", "Email"]
        [([some "A", some "a@x.com"], wExn), ([none, some "b@x.com"], wExn)]).1.map
      (fun r => (r.row_number, r.status, r.email)) =
      [(2, "failed", "a@x.com"), (3, "skipped", "a@x.com")]) ∧
    ("a@x.com" : String) ≠ "b@x.com" ∧ ("a@x.com" : String) ≠ "" := by
  exact ⟨rfl, by decide, by decide⟩

/-- Claim C5: a duplicate-email create response (HTTP 200 body whose
`success` is falsy and whose `errorMessage` equals `email_duplicate`),
followed by a lookup returning a non-empty array whose first element has
id `U2` and an update returning HTTP 200, yields status `updated` with
user id `U2`. -/
theorem C5_duplicate_then_update_succeeds (data : Dict) (w : World)
    (fs ufs : List (String × Json)) (t t2 t3 : String)
    (b2 : Except String Json) (ev : Option String) (us : List Json)
    (hc : w.createResp = .resp 200 (.ok (Json.obj fs)) t)
    (hs : jtruthy ((fieldsGet fs "success").getD Json.null) = false)
    (he : fieldsGet fs "errorMessage" = some (Json.str "email_duplicate"))
    (hd : dlookup data "email" = some ev)
    (hl : w.lookupResp = .resp 200 (.ok (Json.arr (Json.obj ufs :: us))) t2)
    (hid : fieldsGet ufs "id" = some (Json.str "U2"))
    (hu : w.updateResp = .resp 200 b2 t3) :
    create_user data w = ("updated", RespVal.int 200, Json.str "U2") := by
  unfold create_user create_user_try get_user_id_by_email update_user_profile
  rw [hc, hl, hu]
  simp [dictGet, hs, he, hd, hid, jeqStr, jtruthy_str, updateIs200, respValOfUpdate]

/-- Witness for C5 at concrete inputs. -/
theorem C5_duplicate_then_update_succeeds_witness :
    create_user [("email", some "a@x.com")]
      ⟨.resp 200 (.ok dupBody) "",
       .resp 200 (.ok (Json.arr [Json.obj [("id", Json.str "U2")]])) "",
       .resp 200 (.ok Json.null) ""⟩ = ("updated", RespVal.int 200, Json.str "U2") :=
  C5_duplicate_then_update_succeeds [("email", some "a@x.com")] _
    [("errorMessage", Json.str "email_duplicate")] [("id", Json.str "U2")]
    "" "" "" (.ok Json.null) (some "a@x.com") []
    rfl (by rfl) (by rfl) (by rfl) rfl (by rfl) rfl

/-- Claim C6: a duplicate-email create response followed by an empty
lookup result yields status `failed`, empty user id, and the error body
`User not found for update`; the `error_msg` computation in `main`
surfaces exactly that message into the record. -/
theorem C6_duplicate_then_lookup_empty_fails (data : Dict) (w : World)
    (fs : List (String × Json)) (t t2 : String)
    (ev : Option String)
    (hc : w.createResp = .resp 200 (.ok (Json.obj fs)) t)
    (hs : jtruthy ((fieldsGet fs "success").getD Json.null) = false)
    (he : fieldsGet fs "errorMessage" = some (Json.str "email_duplicate"))
    (hd : dlookup data "email" = some ev)
    (hl : w.lookupResp = .resp 200 (.ok (Json.arr [])) t2) :
    create_user data w =
      ("failed",
       RespVal.json (Json.obj [("error", Json.str "User not found for update")]),
       Json.str "") ∧
    error_msg_of "failed"
      (RespVal.json (Json.obj [("error", Json.str "User not found for update")])) =
      .ok "User not found for update" := by
  constructor
  · unfold create_user create_user_try get_user_id_by_email
    rw [hc, hl]
    simp [dictGet, hs, he, hd, jeqStr, jtruthy_null]
  · rfl


/-- Witness for C6 at concrete inputs. -/
theorem C6_duplicate_then_lookup_empty_fails_witness :
    create_user [("email", some "a@x.com")]
      ⟨.resp 200 (.ok dupBody) "", .resp 200 (.ok (Json.arr [])) "", .exn "x"⟩ =
      ("failed",
       RespVal.json (Json.obj [("error", Json.str "User not found for update")]),
       Json.str "") ∧
    error_msg_of "failed"
      (RespVal.json (Json.obj [("error", Json.str "User not found for update")])) =
      .ok "User not found for update" :=
  C6_duplicate_then_lookup_empty_fails [("email", some "a@x.com")] _
    [("errorMessage", Json.str "email_duplicate")] "" "" (some "a@x.com")
    rfl (by rfl) (by rfl) (by rfl) rfl

/-- Claim C7: a transport exception on the create call makes
`create_user` return (not raise) status `failed` with the raw error
captured, the row is recorded as `failed` with that error in the report,
and the loop continues with the remaining rows unaffected. -/
theorem C7_transport_failure_recorded_loop_continues
    (headers : List String) (dataOpt : Option Dict) (n : Nat)
    (row : List Cell) (w : World) (rest : List (List Cell × World))
    (data : Dict) (em : Option String) (e : String)
    (hp : prepare_data row headers = .ok data)
    (hc : w.createResp = .exn e)
    (hd : dlookup data "email" = some em) :
    create_user data w =
      ("failed", RespVal.json (Json.obj [("error", Json.str e)]), Json.str "") ∧
    run_rows headers dataOpt n ((row, w) :: rest) =
      (({ row_number := n, email := write_email em, status := "failed",
          user_id := "", error := e } : Record) ::
          (run_rows headers (some data) (n + 1) rest).1,
        (run_rows headers (some data) (n + 1) rest).2) := by
  have hcu : create_user data w =
      ("failed", RespVal.json (Json.obj [("error", Json.str e)]), Json.str "") := by
    unfold create_user create_user_try
    rw [hc]
  refine ⟨hcu, ?_⟩
  simp only [run_rows]
  unfold process_row
  rw [hp]
  simp [hcu, error_msg_of, error_msg_fallback, fieldsGet, pyStr, hd]

/-- Witness for C7: one timed-out row followed by one more row, showing
the failed record and the continuation with the second row. -/
theorem C7_transport_failure_recorded_loop_continues_witness :
    create_user dataA wExn =
      ("failed", RespVal.json (Json.obj [("error", Json.str "connection timeout")]), Json.str "") ∧
    run_rows ["First Name", "Email"] none 2
        [([some "A", some "a@x.com"], wExn), ([some "B", some "b@x.com"], w4)] =
      (({ row_number := 2, email := "a@x.com", status := "failed",
          user_id := "", error := "connection timeout" } : Record) ::
          (run_rows ["First Name", "Email"] (some dataA) 3
            [([some "B", some "b@x.com"], w4)]).1,
        (run_rows ["First Name", "Email"] (some dataA) 3
          [([some "B", some "b@x.com"], w4)]).2) :=
  C7_transport_failure_recorded_loop_continues ["First Name", "Email"] none 2
    [some "A", some "a@x.com"] wExn [([some "B", some "b@x.com"], w4)]
    dataA (some "a@x.com") "connection timeout" (by rfl) rfl (by rfl)

/-- Claim C8 fails on the code: on the duplicate-email path with a
resolved user id, a non-success update response makes `create_user`
return the bare int status code as the response; `main` then calls
`.get` on that int, raising `AttributeError`, so the row is recorded
with status `error` (an AttributeError message), not status `failed`
carrying the update response. -/
theorem C8_failed_update_recorded_as_error :
    create_user dataA wC8 = ("failed", RespVal.int 500, Json.str "U2") ∧
    process_row ["First Name", "Email"] none 2 [some "A", some "a@x.com"] wC8 =
      .ok ({ row_number := 2, email := "a@x.com", status := "error", user_id := "",
             error := "AttributeError: int object has no attribute get" }, some dataA) :=
  ⟨rfl, rfl⟩

/-- Claim C10: every dict `prepare_data` returns has exactly the six keys
title, firstName, lastName, email, password, isFactorForceActivated, each
bound to a non-None non-empty string, so the None-stripping comprehension
at the top of `create_user` removes nothing from it. -/
theorem C10_payload_keys_and_clean_data (row : List Cell) (headers : List String)
    (data : Dict) (h : prepare_data row headers = .ok data) :
    data.map Prod.fst =
      ["title", "firstName", "lastName", "email", "password", "isFactorForceActivated"] ∧
    (∀ kv ∈ data, ∃ s, kv.2 = some s ∧ s ≠ "") ∧
    clean_data data = data := by
  unfold prepare_data at h
  repeat' split at h
  all_goals try exact (Except.noConfusion h)
  rename_i x1 fn hfn x2 l hl x3 t ht x4 p hp x5 em hem hcond
  injection h with h
  subst h
  simp at hcond
  obtain ⟨hfnT, hemT⟩ := hcond
  cases fn with
  | none => simp [strTruthy] at hfnT
  | some fs =>
  cases em with
  | none => simp [strTruthy] at hemT
  | some es =>
  have hfs : fs ≠ "" := by simpa [strTruthy] using hfnT
  have hes : es ≠ "" := by simpa [strTruthy] using hemT
  refine ⟨rfl, ?_, rfl⟩
  intro kv hkv
  simp only [List.mem_cons, List.not_mem_nil, or_false] at hkv
  rcases hkv with rfl | rfl | rfl | rfl | rfl | rfl
  · exact ⟨pyOr t "-", rfl, pyOr_ne_empty t "-" (by decide)⟩
  · exact ⟨fs, rfl, hfs⟩
  · exact ⟨pyOr l "-", rfl, pyOr_ne_empty l "-" (by decide)⟩
  · exact ⟨es, rfl, hes⟩
  · exact ⟨pyOr p "@Default1", rfl, pyOr_ne_empty p "@Default1" (by decide)⟩
  · exact ⟨"true", rfl, by decide⟩

/-- Witness for C10 at a concrete row. -/
theorem C10_payload_keys_and_clean_data_witness :
    dataA.map Prod.fst =
      ["title", "firstName", "lastName", "email", "password", "isFactorForceActivated"] ∧
    (∀ kv ∈ dataA, ∃ s, kv.2 = some s ∧ s ≠ "") ∧
    clean_data dataA = dataA :=
  C10_payload_keys_and_clean_data [some "A", some "a@x.com"] ["First Name", "Email"]
    dataA (by rfl)

/-- Shape of a successful `create_user` try body: status is one of the
three literals, and a `failed` status comes with an empty user id except
on the update-failure path, whose response is the bare int status code or
the exception tuple. -/
theorem create_user_try_shape (data : Dict) (w : World) (s : String) (r : RespVal) (u : Json)
    (h : create_user_try data w = .ok (s, r, u)) :
    s = "created" ∨ s = "updated" ∨
      (s = "failed" ∧
        (u = Json.str "" ∨ (∃ n, (n == 200) = false ∧ r = RespVal.int n) ∨
          ∃ e, r = RespVal.tup e)) := by
  unfold create_user_try at h
  repeat' split at h
  all_goals try exact (Except.noConfusion h)
  all_goals injection h with h
  all_goals obtain ⟨h1, h2, h3⟩ := Prod.mk.injEq .. ▸ h
  all_goals subst h1
  all_goals try exact Or.inl rfl
  all_goals try exact Or.inr (Or.inl rfl)
  all_goals refine Or.inr (Or.inr ⟨rfl, ?_⟩)
  all_goals try exact Or.inl rfl
  rename_i hT hF
  rcases hU : update_user_profile w.updateResp with n | e
  · refine Or.inr (Or.inl ⟨n, ?_, rfl⟩)
    rw [hU] at hF
    simpa [updateIs200] using hF
  · exact Or.inr (Or.inr ⟨e, rfl⟩)

/-- Shape of every `create_user` result: a non-created, non-updated
outcome is `failed` and either carries an empty user id or is one of the
responses on which the `error_msg` computation of `main` raises. -/
theorem create_user_shape (data : Dict) (w : World) (s : String) (r : RespVal) (u : Json)
    (h : create_user data w = (s, r, u)) :
    s = "created" ∨ s = "updated" ∨
      (s = "failed" ∧ (u = Json.str "" ∨ ∃ e, error_msg_of s r = .error e)) := by
  unfold create_user at h
  split at h
  · next val heq =>
    rw [h] at heq
    rcases create_user_try_shape data w s r u heq with rfl | rfl | ⟨rfl, h2 | ⟨n, hn, rfl⟩ | ⟨e, rfl⟩⟩
    · exact Or.inl rfl
    · exact Or.inr (Or.inl rfl)
    · exact Or.inr (Or.inr ⟨rfl, Or.inl h2⟩)
    · exact Or.inr (Or.inr ⟨rfl, Or.inr
        ⟨"AttributeError: int object has no attribute get", rfl⟩⟩)
    · exact Or.inr (Or.inr ⟨rfl, Or.inr
        ⟨"AttributeError: tuple object has no attribute get", rfl⟩⟩)
  · next e heq =>
    simp only [Prod.mk.injEq] at h
    obtain ⟨h1, h2, h3⟩ := h
    exact Or.inr (Or.inr ⟨h1.symm, Or.inl h3.symm⟩)

/-- Every record a row iteration writes with a non-empty user id has
status created or updated. -/
theorem process_row_record_shape (headers : List String) (dataOpt : Option Dict)
    (row_num : Nat) (row : List Cell) (w : World) (rec : Record) (dataOpt' : Option Dict)
    (h : process_row headers dataOpt row_num row w = .ok (rec, dataOpt'))
    (hu : rec.user_id ≠ "") :
    rec.status = "created" ∨ rec.status = "updated" := by
  unfold process_row at h
  repeat' split at h
  all_goals try exact (Except.noConfusion h)
  all_goals injection h with h
  all_goals obtain ⟨h1, h2⟩ := Prod.mk.injEq .. ▸ h
  all_goals subst h1
  all_goals try exact absurd rfl hu
  rename_i xp data hprep xc status response user_id hcu xe error_msg herr xl em hlook
  rcases create_user_shape data w status response user_id hcu with h1 | h1 | ⟨h1, h2' | ⟨e, he⟩⟩
  · exact Or.inl h1
  · exact Or.inr h1
  · exfalso
    apply hu
    show pyStr user_id = ""
    rw [h2']
    rfl
  · exfalso
    rw [herr] at he
    exact Except.noConfusion he

/-- The loop invariant behind claim C9, by induction over the remaining
rows, for any entering `data` binding and row number. -/
theorem run_rows_user_id_status (headers : List String) (rows : List (List Cell × World)) :
    ∀ (dataOpt : Option Dict) (n : Nat) (rec : Record),
      rec ∈ (run_rows headers dataOpt n rows).1 → rec.user_id ≠ "" →
      rec.status = "created" ∨ rec.status = "updated" := by
  induction rows with
  | nil =>
    intro dataOpt n rec hmem hu
    simp [run_rows] at hmem
  | cons hd tl ih =>
    intro dataOpt n rec hmem hu
    obtain ⟨row, w⟩ := hd
    simp only [run_rows] at hmem
    split at hmem
    · next e heq => simp at hmem
    · next rec0 dataOpt0 heq =>
      simp only [List.mem_cons] at hmem
      rcases hmem with rfl | hmem
      · exact process_row_record_shape headers dataOpt n row w rec dataOpt0 heq hu
      · exact ih dataOpt0 (n + 1) rec hmem hu

/-- Claim C9: in every report `main` produces, a record with a non-empty
user id has status created or updated — equivalently, every record with
status failed, skipped or error has an empty user id. -/
theorem C9_user_id_only_on_created_or_updated (headers : List String)
    (rows : List (List Cell × World)) (rec : Record)
    (hmem : rec ∈ (main_report headers rows).1) (hu : rec.user_id ≠ "") :
    rec.status = "created" ∨ rec.status = "updated" :=
  run_rows_user_id_status headers rows none 2 rec hmem hu

/-- The record of a one-row run whose create call succeeds with id `U1`. -/
def recC9 : Record :=
  { row_number := 2, email := "a@x.com", status := "created", user_id := "U1", error := "" }

/-- Witness for C9: a concrete report containing a created record with a
non-empty user id. -/
theorem C9_user_id_only_on_created_or_updated_witness :
    recC9 ∈ (main_report ["First Name", "Email"] [([some "A", some "a@x.com"], w4)]).1 ∧
    recC9.user_id ≠ "" ∧ (recC9.status = "created" ∨ recC9.status = "updated") :=
  have h1 : recC9 ∈ (main_report ["First Name", "Email"] [([some "A", some "a@x.com"], w4)]).1 := by
    decide
  have h2 : recC9.user_id ≠ "" := by decide
  ⟨h1, h2, C9_user_id_only_on_created_or_updated
    ["First Name", "Email"] [([some "A", some "a@x.com"], w4)] recC9 h1 h2⟩

end ImportMember
